import Mathlib

/-!
Shallow embedding of the YouTube playlist question-answering service
(`src/services/qa_service.py`, `src/adapters/youtube_adapter.py`,
`src/adapters/transcript_extractor.py`, `src/core/models.py`).

Python strings are modelled as `List Char`, `datetime` values as `Date`
records ordered lexicographically, fallible provider calls as
`Except Str` results, and `None`-able integer arguments as `Option Nat`
with Python truthiness (`none` and `some 0` are both falsy).
-/

namespace YTQA

abbrev Str := List Char

def strL (s : String) : Str := s.toList

/-- Python `str.strip()` whitespace test (space, tab, newline, CR, VT, FF). -/
def isPySpace (c : Char) : Bool :=
  c = ' ' || c = '\t' || c = '\n' || c = '\r' || c.toNat = 11 || c.toNat = 12

/-- Python `str.strip()`. -/
def pyStrip (l : Str) : Str :=
  ((l.dropWhile isPySpace).reverse.dropWhile isPySpace).reverse

/-- `leadsWith hay needle` holds when `needle` is an initial segment of `hay`. -/
def leadsWith : Str → Str → Bool
  | _, [] => true
  | [], _ :: _ => false
  | c :: t, d :: u => c = d && leadsWith t u

/-- Python `needle in hay` substring test. -/
def strIncl : Str → Str → Bool
  | [], needle => needle.isEmpty
  | c :: t, needle => leadsWith (c :: t) needle || strIncl t needle

/-- `needle` occurs contiguously inside `hay`. -/
def Occurs (needle hay : Str) : Prop := ∃ a b, hay = a ++ needle ++ b

/-- Number of starting positions at which `needle` occurs in `hay`. -/
def countOcc : Str → Str → Nat
  | [], needle => if needle.isEmpty then 1 else 0
  | c :: t, needle => (if leadsWith (c :: t) needle then 1 else 0) + countOcc t needle

/-- Python `"\n".join(parts)`. -/
def joinNL : List Str → Str
  | [] => []
  | [p] => p
  | p :: q :: rest => p ++ '\n' :: joinNL (q :: rest)

/-- Python `" ".join(parts)`. -/
def joinSpace : List Str → Str
  | [] => []
  | [p] => p
  | p :: q :: rest => p ++ ' ' :: joinSpace (q :: rest)

/-- Python `str.lower()` (ASCII case folding). -/
def lowerStr (l : Str) : Str := l.map Char.toLower

def natStr (n : Nat) : Str := (Nat.repr n).toList

def pad2 (n : Nat) : Str := if n < 10 then '0' :: natStr n else natStr n

def pad4 (n : Nat) : Str :=
  if n < 10 then '0' :: '0' :: '0' :: natStr n
  else if n < 100 then '0' :: '0' :: natStr n
  else if n < 1000 then '0' :: natStr n
  else natStr n

/-- Calendar date; `datetime` is compared field-lexicographically. -/
structure Date where
  year : Nat
  month : Nat
  day : Nat
deriving DecidableEq, Repr

def Date.le (a b : Date) : Prop :=
  a.year < b.year ∨
    (a.year = b.year ∧ (a.month < b.month ∨ (a.month = b.month ∧ a.day ≤ b.day)))

instance (a b : Date) : Decidable (Date.le a b) := by
  unfold Date.le; infer_instance

theorem Date.le_total (a b : Date) : Date.le a b ∨ Date.le b a := by
  unfold Date.le; omega

theorem Date.le_trans {a b c : Date} (h1 : Date.le a b) (h2 : Date.le b c) :
    Date.le a c := by
  unfold Date.le at *; omega

/-- `strftime("%Y-%m-%d")`. -/
def fmtDate (d : Date) : Str := pad4 d.year ++ '-' :: pad2 d.month ++ '-' :: pad2 d.day

/-- `src/core/models.py`: frozen dataclass `Video`. -/
structure Video where
  video_id : Str
  title : Str
  description : Str
  channel_title : Str
  published_at : Date
  duration : Option Str := none
  thumbnail_url : Option Str := none
  transcript : Option Str := none
deriving DecidableEq, Repr

/-- `src/core/models.py`: frozen dataclass `Playlist` (video list omitted, unused here). -/
structure Playlist where
  playlist_id : Str
  title : Str
  description : Str
  channel_title : Str
  video_count : Nat
  published_at : Date
deriving DecidableEq, Repr

/-- `src/core/models.py`: frozen dataclass `Channel` (fields used by the QA service). -/
structure Channel where
  channel_id : Str
  title : Str
  description : Str
  subscriber_count : Option Nat := none
  video_count : Option Nat := none
deriving DecidableEq, Repr

/-- `src/services/qa_service.py`: dataclass `QAResponse`. -/
structure QAResponse where
  answer : Str
  sources : List Str
  confidence : ℚ
deriving DecidableEq, Repr

/-- Ordering used by `videos.sort(key=lambda v: v.published_at, reverse=True)`:
`a` may precede `b` when `a` is at least as recent. -/
def videoGE (a b : Video) : Prop := Date.le b.published_at a.published_at

instance : DecidableRel videoGE := fun a b => by
  unfold videoGE; infer_instance

instance : IsTotal Video videoGE :=
  ⟨fun a b => (Date.le_total b.published_at a.published_at).elim Or.inl Or.inr⟩

instance : IsTrans Video videoGE :=
  ⟨fun _ _ _ hab hbc => Date.le_trans hbc hab⟩

/-- Python's stable descending sort by `published_at` (`list.sort` with
`reverse=True`): stable sorts agree on output, modelled by insertion sort. -/
def sortDesc (l : List Video) : List Video := List.insertionSort videoGE l

theorem sortDesc_sorted (l : List Video) : List.Sorted videoGE (sortDesc l) :=
  List.sorted_insertionSort videoGE l

theorem sortDesc_perm (l : List Video) : List.Perm (sortDesc l) l :=
  List.perm_insertionSort videoGE l

theorem leadsWith_iff (hay needle : Str) :
    leadsWith hay needle = true ↔ ∃ t, hay = needle ++ t := by
  induction needle generalizing hay with
  | nil => simp [leadsWith]
  | cons d u ih =>
    cases hay with
    | nil => simp [leadsWith]
    | cons c t =>
      simp only [leadsWith, Bool.and_eq_true, decide_eq_true_eq, ih]
      constructor
      · rintro ⟨rfl, s, rfl⟩
        exact ⟨s, rfl⟩
      · rintro ⟨s, hs⟩
        cases hs
        exact ⟨rfl, s, rfl⟩

theorem strIncl_iff (hay needle : Str) :
    strIncl hay needle = true ↔ Occurs needle hay := by
  induction hay with
  | nil =>
    simp only [strIncl, List.isEmpty_iff, Occurs]
    constructor
    · rintro rfl; exact ⟨[], [], rfl⟩
    · rintro ⟨a, b, hab⟩
      rcases List.append_eq_nil.mp ((List.append_eq_nil).mp hab.symm).1 with ⟨_, h2⟩
      exact h2
  | cons c t ih =>
    simp only [strIncl, Bool.or_eq_true, leadsWith_iff, ih, Occurs]
    constructor
    · rintro (⟨s, hs⟩ | ⟨a, b, rfl⟩)
      · exact ⟨[], s, by simpa using hs⟩
      · exact ⟨c :: a, b, rfl⟩
    · rintro ⟨a, b, hab⟩
      cases a with
      | nil => exact Or.inl ⟨b, by simpa using hab⟩
      | cons x a' =>
        right
        simp only [List.cons_append, List.cons.injEq] at hab
        exact ⟨a', b, hab.2⟩

theorem occurs_of_leads (hay needle : Str) (h : leadsWith hay needle = true) :
    Occurs needle hay := by
  rcases (leadsWith_iff hay needle).mp h with ⟨t, rfl⟩
  exact ⟨[], t, rfl⟩

theorem occurs_append_left (needle pre hay : Str) (h : Occurs needle hay) :
    Occurs needle (pre ++ hay) := by
  rcases h with ⟨a, b, rfl⟩
  exact ⟨pre ++ a, b, by simp⟩

theorem occurs_append_right (needle hay post : Str) (h : Occurs needle hay) :
    Occurs needle (hay ++ post) := by
  rcases h with ⟨a, b, rfl⟩
  exact ⟨a, b ++ post, by simp⟩

theorem occurs_trans {n s hay : Str} (h1 : Occurs n s) (h2 : Occurs s hay) :
    Occurs n hay := by
  rcases h1 with ⟨a, b, rfl⟩
  rcases h2 with ⟨x, y, rfl⟩
  exact ⟨x ++ a, b ++ y, by simp⟩

theorem occurs_of_mem_joinNL {s : Str} {parts : List Str} (h : s ∈ parts) :
    Occurs s (joinNL parts) := by
  induction parts with
  | nil => cases h
  | cons p rest ih =>
    cases rest with
    | nil =>
      rcases List.mem_singleton.mp h with rfl
      exact ⟨[], [], by simp [joinNL]⟩
    | cons q rest' =>
      rcases List.mem_cons.mp h with rfl | hmem
      · exact ⟨[], '\n' :: joinNL (q :: rest'), by simp [joinNL]⟩
      · have := ih hmem
        have h2 : Occurs s ('\n' :: joinNL (q :: rest')) :=
          occurs_append_left s ['\n'] (joinNL (q :: rest'))  this
        simpa [joinNL] using occurs_append_left s p _ h2

/-- Truthiness of Python `Optional[int]` arguments: `None` and `0` are falsy. -/
def truthy : Option Nat → Bool
  | none => false
  | some k => k ≠ 0

def limVal (m : Option Nat) : Nat := m.getD 0

/-- Description truncation in the context builders (200 chars plus ellipsis). -/
def truncDesc (d : Str) : Str :=
  if 200 < d.length then d.take 200 ++ strL "..." else d

/-- Transcript truncation in the channel context builder (500 chars plus ellipsis). -/
def truncTranscript (t : Str) : Str :=
  if 500 < t.length then t.take 500 ++ strL "..." else t

/-- The numbered per-video blocks of `_build_playlist_context`: title line,
published line, channel line, optional description line, blank line. -/
def videoEntries : Nat → List Video → List Str
  | _, [] => []
  | i, v :: rest =>
    ([natStr i ++ strL ". " ++ v.title,
      strL "   Published: " ++ fmtDate v.published_at,
      strL "   Channel: " ++ v.channel_title] ++
     (if !v.description.isEmpty && !(pyStrip v.description).isEmpty then
        [strL "   Description: " ++ truncDesc v.description] else []) ++
     [[]]) ++ videoEntries (i + 1) rest

/-- `YouTubeQAService._build_playlist_context`. -/
def build_playlist_context (p : Playlist) (videos : List Video) : Str :=
  joinNL
    ([strL "PLAYLIST INFORMATION:",
      strL "Title: " ++ p.title,
      strL "Channel: " ++ p.channel_title,
      strL "Total Videos: " ++ natStr p.video_count,
      strL "Description: " ++ p.description,
      []] ++
     (strL "VIDEOS IN PLAYLIST (showing first " ++ natStr videos.length ++ strL "):") ::
     videoEntries 1 videos)

/-- Rendering of a possibly-absent count in an f-string (`None` when absent). -/
def optNatStr : Option Nat → Str
  | none => strL "None"
  | some n => natStr n

/-- The numbered per-video blocks of `_build_channel_context`: no channel line,
optional description line, optional transcript line, blank line. -/
def channelEntries : Nat → List Video → List Str
  | _, [] => []
  | i, v :: rest =>
    ([natStr i ++ strL ". " ++ v.title,
      strL "   Published: " ++ fmtDate v.published_at] ++
     (if !v.description.isEmpty && !(pyStrip v.description).isEmpty then
        [strL "   Description: " ++ truncDesc v.description] else []) ++
     (match v.transcript with
      | some t =>
        if !t.isEmpty && !(pyStrip t).isEmpty then
          [strL "   Transcript: " ++ truncTranscript t] else []
      | none => []) ++
     [[]]) ++ channelEntries (i + 1) rest

/-- `YouTubeQAService._build_channel_context`. -/
def build_channel_context (c : Channel) (videos : List Video) (question : Str) : Str :=
  joinNL
    ([strL "CHANNEL INFORMATION:",
      strL "Title: " ++ c.title,
      strL "Description: " ++ c.description,
      strL "Total Videos: " ++ optNatStr c.video_count,
      strL "Subscribers: " ++ optNatStr c.subscriber_count,
      []] ++
     (strL "RELEVANT VIDEOS FOR QUESTION '" ++ question ++ strL "' (showing " ++
        natStr videos.length ++ strL " most relevant):") ::
     channelEntries 1 videos)

/-- `YouTubeAPIAdapter.is_playlist_url`. -/
def is_playlist_url (url : Str) : Bool := strIncl url (strL "list=")

def tailNoSlash (l : Str) : Bool := !l.isEmpty && l.all (fun c => c ≠ '/')

/-- Regex `youtube\.com/[^/]+$`: some suffix of the URL starts with the literal
`youtube.com/` followed by a nonempty slash-free remainder reaching the end. -/
def lastSegPattern : Str → Bool
  | [] => false
  | c :: rest =>
    (leadsWith (c :: rest) (strL "youtube.com/") && tailNoSlash ((c :: rest).drop 12)) ||
      lastSegPattern rest

/-- `YouTubeAPIAdapter.is_channel_url`. -/
def is_channel_url (url : Str) : Bool :=
  strIncl url (strL "youtube.com/channel/") || strIncl url (strL "youtube.com/c/") ||
    strIncl url (strL "youtube.com/user/") || strIncl url (strL "youtube.com/@") ||
    lastSegPattern url

/-- Provider interface (`src/interfaces/youtube_repository.py`) as consumed by
the QA service; fallible calls return `Except` carrying the exception text. -/
structure YouTubeRepo where
  is_playlist_url : Str → Bool
  get_playlist : Str → Except Str Playlist
  get_playlist_videos : Str → Option Nat → Except Str (List Video)
  get_channel : Str → Except Str Channel
  search_channel_videos : Str → Str → Option Nat → Bool → Except Str (List Video)

/-- Generation provider interface (`src/interfaces/llm_repository.py`). -/
structure LLMRepo where
  generate_response : Str → Str → Nat → Except Str Str

/-- `max_videos or 20` in the channel branch of `answer_question`. -/
def channelLimit (max_videos : Option Nat) : Nat :=
  if truthy max_videos then limVal max_videos else 20

/-- The degraded answer text produced by the `except` handler of `answer_question`. -/
def errAnswer (e : Str) : Str :=
  strL "I encountered an error while processing your question: " ++ e

/-- Source citation line: title, published date in `%Y-%m-%d` form. -/
def sourceLine (v : Video) : Str :=
  v.title ++ strL " (Published: " ++ fmtDate v.published_at ++ strL ")"

/-- The body of `YouTubeQAService.answer_question` inside the `try` block. -/
def answerPipeline (yt : YouTubeRepo) (llm : LLMRepo) (question url : Str)
    (max_videos : Option Nat) : Except Str QAResponse := do
  let cv ←
    if yt.is_playlist_url url then do
      let playlist ← yt.get_playlist url
      let videos ← yt.get_playlist_videos url max_videos
      pure (build_playlist_context playlist videos, videos)
    else do
      let channel ← yt.get_channel url
      let videos ← yt.search_channel_videos url question (some (channelLimit max_videos)) true
      pure (build_channel_context channel videos question, videos)
  let answer ← llm.generate_response question cv.1 300
  pure { answer := pyStrip answer,
         sources := (cv.2.take 10).map sourceLine,
         confidence := 0.8 }

/-- `YouTubeQAService.answer_question`, top-level exception handler included. -/
def answer_question (yt : YouTubeRepo) (llm : LLMRepo) (question url : Str)
    (max_videos : Option Nat) : QAResponse :=
  match answerPipeline yt llm question url max_videos with
  | .ok r => r
  | .error e => { answer := errAnswer e, sources := [], confidence := 0 }

/-- Title/description matching in the playlist branch of `search_videos`;
an empty (falsy) description short-circuits to no description match. -/
def matchCond (query : Str) (v : Video) : Bool :=
  strIncl (lowerStr v.title) (lowerStr query) ||
    (if v.description.isEmpty then false
     else strIncl (lowerStr v.description) (lowerStr query))

/-- Playlist branch of `YouTubeQAService.search_videos`: filter, stable sort
newest-first, truncate when `max_results` is truthy. -/
def searchPlaylistVideos (videos : List Video) (query : Str)
    (max_results : Option Nat) : List Video :=
  let sorted := sortDesc (videos.filter (matchCond query))
  if truthy max_results then sorted.take (limVal max_results) else sorted

/-- `YouTubeQAService.search_videos` with its exception-to-empty-list policy. -/
def search_videos (yt : YouTubeRepo) (query url : Str)
    (max_results : Option Nat) : List Video :=
  if yt.is_playlist_url url then
    match yt.get_playlist_videos url none with
    | .ok videos => searchPlaylistVideos videos query max_results
    | .error _ => []
  else
    match yt.search_channel_videos url query max_results false with
    | .ok videos => videos
    | .error _ => []

/-- The per-item accumulation loop of `YouTubeAPIAdapter.get_playlist_videos`
over the flattened pagination stream, in playlist order: `Sum.inl` is the early
return taken inside the loop when a truthy `max_results` is reached. -/
def pageScan (m : Option Nat) : List Video → List Video → Sum (List Video) (List Video)
  | acc, [] => Sum.inr acc
  | acc, v :: rest =>
    if truthy m ∧ limVal m ≤ (acc ++ [v]).length then
      Sum.inl ((acc ++ [v]).take (limVal m))
    else pageScan m (acc ++ [v]) rest

/-- `YouTubeAPIAdapter.get_playlist_videos` (API path) as a function of the
videos delivered by pagination in playlist order: early return on reaching a
truthy limit, otherwise a newest-first sort (the code sorts twice) and a
truthy-limit truncation. -/
def get_playlist_videos (items : List Video) (m : Option Nat) : List Video :=
  match pageScan m [] items with
  | Sum.inl early => early
  | Sum.inr all =>
    if truthy m then (sortDesc (sortDesc all)).take (limVal m)
    else sortDesc (sortDesc all)

/-- Outcome of the yt-dlp `subprocess.run`: return code and the content of the
first `.vtt`/`.srt` subtitle file found, if any.  Exceptions and the 30-second
timeout are the `Except.error` case of `YtdlpEnv.run`. -/
structure RunResult where
  returncode : Int
  subtitleContent : Option Str

structure YtdlpEnv where
  run : Except Str RunResult

/-- A transcript object: fetching yields the segments' text fields
(`segment.get("text", "")`, empty when the key is missing) or throws. -/
structure TranscriptHandle where
  fetchResult : Except Str (List Str)

/-- What `YouTubeTranscriptApi.list_transcripts` exposes: the manual English
transcript, the generated English transcript, and the enumeration order. -/
structure TranscriptList where
  manual_en : Option TranscriptHandle
  generated_en : Option TranscriptHandle
  enumerated : List TranscriptHandle

structure TranscriptEnv where
  listing : Except Str TranscriptList
  ytdlp : YtdlpEnv

/-- `" ".join(segment.get("text", "").strip() for segment in data if segment.get("text"))`. -/
def joinSegments (segs : List Str) : Str :=
  joinSpace ((segs.filter (fun s => !s.isEmpty)).map pyStrip)

/-- Python `content.split('\n')`. -/
def splitOnNL : Str → List Str
  | [] => [[]]
  | c :: rest =>
    if c = '\n' then [] :: splitOnNL rest
    else
      match splitOnNL rest with
      | [] => [[c]]
      | p :: ps => (c :: p) :: ps

/-- Python `str.isdigit()` (ASCII). -/
def isDigitStr (l : Str) : Bool := !l.isEmpty && l.all Char.isDigit

def dropTagAux : Str → Option Str
  | [] => none
  | c :: rest => if c = '>' then some rest else dropTagAux rest

/-- After a `<`, consume `[^>]+>`; `none` when the regex does not match there. -/
def dropTag : Str → Option Str
  | [] => none
  | c :: rest => if c = '>' then none else dropTagAux rest

theorem dropTagAux_length : ∀ l r, dropTagAux l = some r → r.length < l.length := by
  intro l
  induction l with
  | nil => intro r h; cases h
  | cons c rest ih =>
    intro r h
    by_cases hc : c = '>'
    · simp [dropTagAux, hc] at h
      simp [← h]
    · simp [dropTagAux, hc] at h
      exact Nat.lt_trans (ih r h) (Nat.lt_succ_self _)

theorem dropTag_length : ∀ l r, dropTag l = some r → r.length < l.length := by
  intro l r h
  cases l with
  | nil => cases h
  | cons c rest =>
    by_cases hc : c = '>'
    · simp [dropTag, hc] at h
    · simp [dropTag, hc] at h
      exact Nat.lt_trans (dropTagAux_length rest r h) (Nat.lt_succ_self _)

/-- `re.sub(r'<[^>]+>', '', line)`: drop each leftmost minimal tag. -/
def stripTags : Str → Str
  | [] => []
  | c :: rest =>
    if c = '<' then
      match h : dropTag rest with
      | some r => stripTags r
      | none => c :: stripTags rest
    else c :: stripTags rest
termination_by l => l.length
decreasing_by
  · simpa using Nat.lt_trans (dropTag_length rest r h) (Nat.lt_succ_self _)
  · simp
  · simp

/-- `TranscriptExtractor._parse_subtitle_content`. -/
def parse_subtitle_content (content : Str) : Str :=
  joinSpace ((splitOnNL content).filterMap (fun l0 =>
    let l := pyStrip l0
    if l.isEmpty || leadsWith l (strL "WEBVTT") || strIncl l (strL "-->") ||
        isDigitStr l || leadsWith l (strL "NOTE") || leadsWith l (strL "<") then none
    else
      let l2 := stripTags l
      if l2.isEmpty then none else some l2))

/-- `TranscriptExtractor.extract_transcript`. -/
def extract_transcript (env : YtdlpEnv) : Option Str :=
  match env.run with
  | .error _ => none
  | .ok r =>
    if r.returncode ≠ 0 then none
    else
      match r.subtitleContent with
      | none => none
      | some content => some (parse_subtitle_content content)

/-- Transcript-source preference in `get_video_transcript`: manual English,
then auto-generated English, then the first enumerated transcript. -/
def chooseTranscript (tl : TranscriptList) : Option TranscriptHandle :=
  match tl.manual_en with
  | some t => some t
  | none =>
    match tl.generated_en with
    | some t => some t
    | none => tl.enumerated.head?

/-- `YouTubeAPIAdapter.get_video_transcript`. -/
def get_video_transcript (env : TranscriptEnv) : Option Str :=
  match env.listing with
  | .error _ => extract_transcript env.ytdlp
  | .ok tl =>
    match chooseTranscript tl with
    | none => none
    | some t =>
      match t.fetchResult with
      | .error _ => extract_transcript env.ytdlp
      | .ok segs =>
        let full := joinSegments segs
        if !(pyStrip full).isEmpty then some full else none

theorem truthy_pos {m : Option Nat} (h : truthy m = true) : 0 < limVal m := by
  cases m with
  | none => cases h
  | some k =>
    simp [truthy] at h
    simp [limVal]
    omega

theorem pageScan_untruthy {m : Option Nat} (hm : truthy m = false) :
    ∀ rest acc, pageScan m acc rest = Sum.inr (acc ++ rest) := by
  intro rest
  induction rest with
  | nil => intro acc; simp [pageScan]
  | cons v rest ih =>
    intro acc
    rw [pageScan, if_neg (fun hand => by simp [hm] at hand), ih]
    simp

theorem pageScan_short {m : Option Nat} :
    ∀ rest acc, acc.length + rest.length < limVal m →
      pageScan m acc rest = Sum.inr (acc ++ rest) := by
  intro rest
  induction rest with
  | nil => intro acc _; simp [pageScan]
  | cons v rest ih =>
    intro acc h
    have hc : ¬ (truthy m = true ∧ limVal m ≤ (acc ++ [v]).length) := by
      rintro ⟨_, hle⟩
      simp at hle h
      omega
    rw [pageScan, if_neg hc, ih]
    · simp
    · simp at h ⊢
      omega

theorem pageScan_reach {m : Option Nat} (hm : truthy m = true) :
    ∀ rest acc, acc.length < limVal m → limVal m ≤ acc.length + rest.length →
      pageScan m acc rest = Sum.inl ((acc ++ rest).take (limVal m)) := by
  intro rest
  induction rest with
  | nil =>
    intro acc h1 h2
    simp at h2
    omega
  | cons v rest ih =>
    intro acc h1 h2
    by_cases hc : limVal m ≤ (acc ++ [v]).length
    · rw [pageScan, if_pos ⟨hm, hc⟩]
      have hlim : limVal m = (acc ++ [v]).length := by
        simp at hc ⊢
        omega
      rw [hlim, List.take_length,
        show acc ++ v :: rest = (acc ++ [v]) ++ rest by simp,
        List.take_left]
    · rw [pageScan, if_neg (fun hand => hc hand.2),
        ih (acc ++ [v]) (by simp at hc ⊢; omega) (by simp at h2 ⊢; omega)]
      simp

/-- C3 (amended): `get_playlist_videos` returns at most `max_results` videos
when the limit is truthy; the result is newest-first sorted and a permutation
of the playlist whenever the limit is untruthy or exceeds the number of
available videos; but when a truthy limit is reached during pagination, the
result is exactly the first `max_results` videos in playlist fetch order,
with no date sorting applied. -/
theorem get_playlist_videos_spec (items : List Video) (m : Option Nat) :
    (truthy m = true → (get_playlist_videos items m).length ≤ limVal m) ∧
    (truthy m = false ∨ items.length < limVal m →
      List.Sorted videoGE (get_playlist_videos items m) ∧
        List.Perm (get_playlist_videos items m) items) ∧
    (truthy m = true → limVal m ≤ items.length →
      get_playlist_videos items m = items.take (limVal m)) := by
  by_cases hm : truthy m = true
  · by_cases hlen : limVal m ≤ items.length
    · have hscan := pageScan_reach hm items [] (by simpa using truthy_pos hm) (by simpa using hlen)
      simp only [List.nil_append] at hscan
      have : get_playlist_videos items m = items.take (limVal m) := by
        rw [get_playlist_videos, hscan]
      refine ⟨fun _ => ?_, fun hor => ?_, fun _ _ => this⟩
      · rw [this, List.length_take]
        omega
      · rcases hor with hf | hlt
        · rw [hm] at hf; cases hf
        · omega
    · push_neg at hlen
      have hscan := pageScan_short items [] (by simpa using hlen)
      simp only [List.nil_append] at hscan
      have hperm : List.Perm (sortDesc (sortDesc items)) items :=
        (sortDesc_perm (sortDesc items)).trans (sortDesc_perm items)
      have heq : get_playlist_videos items m = sortDesc (sortDesc items) := by
        simp only [get_playlist_videos, hscan]
        rw [if_pos hm, List.take_of_length_le (by rw [hperm.length_eq]; omega)]
      refine ⟨fun _ => ?_, fun _ => ?_, fun _ h => absurd h (by omega)⟩
      · rw [heq, hperm.length_eq]
        omega
      · rw [heq]
        exact ⟨sortDesc_sorted (sortDesc items), hperm⟩
  · have hm' : truthy m = false := by simpa using hm
    have hscan := pageScan_untruthy hm' items []
    simp only [List.nil_append] at hscan
    have heq : get_playlist_videos items m = sortDesc (sortDesc items) := by
      simp only [get_playlist_videos, hscan]
      rw [if_neg (by simp [hm'])]
    refine ⟨fun h => absurd h (by simp [hm']), fun _ => ?_, fun h => absurd h (by simp [hm'])⟩
    rw [heq]
    exact ⟨sortDesc_sorted (sortDesc items),
      (sortDesc_perm (sortDesc items)).trans (sortDesc_perm items)⟩

def vOldC3 : Video :=
  { video_id := strL "a", title := strL "Old", description := [],
    channel_title := strL "C", published_at := ⟨2020, 1, 1⟩ }

def vNewC3 : Video :=
  { video_id := strL "b", title := strL "New", description := [],
    channel_title := strL "C", published_at := ⟨2021, 5, 5⟩ }

/-- C3 counterexample: with `max_results = 2` reached during pagination, the
videos come back in playlist fetch order, oldest first, so the newest-first
ordering stated by the claim fails. -/
theorem get_playlist_videos_unsorted_cex :
    get_playlist_videos [vOldC3, vNewC3] (some 2) = [vOldC3, vNewC3] ∧
      ¬ List.Sorted videoGE (get_playlist_videos [vOldC3, vNewC3] (some 2)) := by
  constructor
  · decide
  · intro hs
    rw [show get_playlist_videos [vOldC3, vNewC3] (some 2) = [vOldC3, vNewC3] by decide] at hs
    have := List.rel_of_sorted_cons hs vNewC3 (by simp)
    revert this
    decide

/-- Witness for the amended C3 theorem at concrete inputs. -/
theorem get_playlist_videos_spec_witness :
    (get_playlist_videos [vOldC3] (some 1)).length ≤ limVal (some 1) ∧
      get_playlist_videos [vOldC3] (some 1) = List.take (limVal (some 1)) [vOldC3] := by
  have h := get_playlist_videos_spec [vOldC3] (some 1)
  exact ⟨h.1 (by decide), h.2.2 (by decide) (by decide)⟩

/-- C1: `answer_question` never propagates a provider or generation exception:
at every failure point of the pipeline (playlist metadata fetch, playlist
video fetch, channel metadata fetch, channel video search, text generation,
in either branch), the returned `QAResponse` carries the human-readable error
answer embedding the exception text, an empty sources list, and confidence
exactly 0. -/
theorem answer_question_error_policy
    (yt : YouTubeRepo) (llm : LLMRepo) (q url : Str) (m : Option Nat) (e : Str)
    (p : Playlist) (vs : List Video) (c : Channel) :
    (yt.is_playlist_url url = true → yt.get_playlist url = .error e →
      answer_question yt llm q url m =
        { answer := errAnswer e, sources := [], confidence := 0 }) ∧
    (yt.is_playlist_url url = true → yt.get_playlist url = .ok p →
      yt.get_playlist_videos url m = .error e →
      answer_question yt llm q url m =
        { answer := errAnswer e, sources := [], confidence := 0 }) ∧
    (yt.is_playlist_url url = true → yt.get_playlist url = .ok p →
      yt.get_playlist_videos url m = .ok vs →
      llm.generate_response q (build_playlist_context p vs) 300 = .error e →
      answer_question yt llm q url m =
        { answer := errAnswer e, sources := [], confidence := 0 }) ∧
    (yt.is_playlist_url url = false → yt.get_channel url = .error e →
      answer_question yt llm q url m =
        { answer := errAnswer e, sources := [], confidence := 0 }) ∧
    (yt.is_playlist_url url = false → yt.get_channel url = .ok c →
      yt.search_channel_videos url q (some (channelLimit m)) true = .error e →
      answer_question yt llm q url m =
        { answer := errAnswer e, sources := [], confidence := 0 }) ∧
    (yt.is_playlist_url url = false → yt.get_channel url = .ok c →
      yt.search_channel_videos url q (some (channelLimit m)) true = .ok vs →
      llm.generate_response q (build_channel_context c vs q) 300 = .error e →
      answer_question yt llm q url m =
        { answer := errAnswer e, sources := [], confidence := 0 }) := by
  refine ⟨fun h1 h2 => ?_, fun h1 h2 h3 => ?_, fun h1 h2 h3 h4 => ?_,
          fun h1 h2 => ?_, fun h1 h2 h3 => ?_, fun h1 h2 h3 h4 => ?_⟩ <;>
    simp [answer_question, answerPipeline, Bind.bind, Except.bind,
      Pure.pure, Except.pure, *]

def repoC1 : YouTubeRepo :=
  { is_playlist_url := fun _ => true,
    get_playlist := fun _ => .error (strL "HTTP 404"),
    get_playlist_videos := fun _ _ => .ok [],
    get_channel := fun _ => .error (strL "HTTP 404"),
    search_channel_videos := fun _ _ _ _ => .ok [] }

def llmC1 : LLMRepo := { generate_response := fun _ _ _ => .ok (strL "fine") }

/-- Witness for C1: a provider that throws on the playlist fetch yields the
degraded response. -/
theorem answer_question_error_policy_witness :
    answer_question repoC1 llmC1 (strL "what is this?") (strL "u") none =
      { answer := errAnswer (strL "HTTP 404"), sources := [], confidence := 0 } :=
  (answer_question_error_policy repoC1 llmC1 (strL "what is this?") (strL "u") none
      (strL "HTTP 404") ⟨[], [], [], [], 0, ⟨0, 0, 0⟩⟩ [] ⟨[], [], [], none, none⟩).1
    rfl rfl

/-- C5: on every successful pipeline run over fetched videos `vs`, in either
branch, the sources list is exactly the first ten videos in fetch order, each
rendered as the title followed by the published date, so its length is
`min 10 vs.length`. -/
theorem answer_question_sources
    (yt : YouTubeRepo) (llm : LLMRepo) (q url : Str) (m : Option Nat)
    (p : Playlist) (c : Channel) (vs : List Video) (a : Str) :
    (yt.is_playlist_url url = true → yt.get_playlist url = .ok p →
      yt.get_playlist_videos url m = .ok vs →
      llm.generate_response q (build_playlist_context p vs) 300 = .ok a →
      (answer_question yt llm q url m).sources = (vs.take 10).map sourceLine ∧
        (answer_question yt llm q url m).sources.length = min 10 vs.length) ∧
    (yt.is_playlist_url url = false → yt.get_channel url = .ok c →
      yt.search_channel_videos url q (some (channelLimit m)) true = .ok vs →
      llm.generate_response q (build_channel_context c vs q) 300 = .ok a →
      (answer_question yt llm q url m).sources = (vs.take 10).map sourceLine ∧
        (answer_question yt llm q url m).sources.length = min 10 vs.length) := by
  refine ⟨fun h1 h2 h3 h4 => ?_, fun h1 h2 h3 h4 => ?_⟩ <;>
    simp [answer_question, answerPipeline, Bind.bind, Except.bind,
      Pure.pure, Except.pure, List.length_take, *]

def vC5a : Video :=
  { video_id := strL "v1", title := strL "First", description := [],
    channel_title := strL "Ch", published_at := ⟨2024, 3, 9⟩ }

def vC5b : Video :=
  { video_id := strL "v2", title := strL "Second", description := [],
    channel_title := strL "Ch", published_at := ⟨2023, 11, 30⟩ }

def pC5 : Playlist :=
  { playlist_id := strL "p", title := strL "P", description := strL "d",
    channel_title := strL "Ch", video_count := 2, published_at := ⟨2023, 1, 1⟩ }

def repoC5 : YouTubeRepo :=
  { is_playlist_url := fun _ => true,
    get_playlist := fun _ => .ok pC5,
    get_playlist_videos := fun _ _ => .ok [vC5a, vC5b],
    get_channel := fun _ => .error (strL "x"),
    search_channel_videos := fun _ _ _ _ => .error (strL "x") }

def llmC5 : LLMRepo := { generate_response := fun _ _ _ => .ok (strL "an answer") }

/-- Witness for C5: two fetched videos yield two rendered sources in fetch
order. -/
theorem answer_question_sources_witness :
    (answer_question repoC5 llmC5 (strL "q") (strL "u") none).sources =
        ([vC5a, vC5b].take 10).map sourceLine ∧
      (answer_question repoC5 llmC5 (strL "q") (strL "u") none).sources.length =
        min 10 [vC5a, vC5b].length :=
  (answer_question_sources repoC5 llmC5 (strL "q") (strL "u") none pC5
      ⟨[], [], [], none, none⟩ [vC5a, vC5b] (strL "an answer")).1
    rfl rfl rfl rfl

/-- C8: when the pipeline succeeds and the generation provider returns the
empty string, the answer is the empty string and the confidence is still 0.8,
in either branch: the 0.8 is not contingent on non-empty output. -/
theorem answer_question_empty_generation
    (yt : YouTubeRepo) (llm : LLMRepo) (q url : Str) (m : Option Nat)
    (p : Playlist) (c : Channel) (vs : List Video) :
    (yt.is_playlist_url url = true → yt.get_playlist url = .ok p →
      yt.get_playlist_videos url m = .ok vs →
      llm.generate_response q (build_playlist_context p vs) 300 = .ok [] →
      (answer_question yt llm q url m).answer = [] ∧
        (answer_question yt llm q url m).confidence = 0.8) ∧
    (yt.is_playlist_url url = false → yt.get_channel url = .ok c →
      yt.search_channel_videos url q (some (channelLimit m)) true = .ok vs →
      llm.generate_response q (build_channel_context c vs q) 300 = .ok [] →
      (answer_question yt llm q url m).answer = [] ∧
        (answer_question yt llm q url m).confidence = 0.8) := by
  refine ⟨fun h1 h2 h3 h4 => ?_, fun h1 h2 h3 h4 => ?_⟩ <;>
    simp [answer_question, answerPipeline, Bind.bind, Except.bind,
      Pure.pure, Except.pure, pyStrip, *]

def repoC8 : YouTubeRepo :=
  { is_playlist_url := fun _ => true,
    get_playlist := fun _ => .ok ⟨strL "p", strL "P", [], strL "Ch", 0, ⟨2023, 1, 1⟩⟩,
    get_playlist_videos := fun _ _ => .ok [],
    get_channel := fun _ => .error (strL "x"),
    search_channel_videos := fun _ _ _ _ => .error (strL "x") }

def llmC8 : LLMRepo := { generate_response := fun _ _ _ => .ok [] }

/-- Witness for C8: an empty generated string leaves the empty answer and the
0.8 confidence. -/
theorem answer_question_empty_generation_witness :
    (answer_question repoC8 llmC8 (strL "q") (strL "u") none).answer = [] ∧
      (answer_question repoC8 llmC8 (strL "q") (strL "u") none).confidence = 0.8 :=
  (answer_question_empty_generation repoC8 llmC8 (strL "q") (strL "u") none
      ⟨strL "p", strL "P", [], strL "Ch", 0, ⟨2023, 1, 1⟩⟩
      ⟨[], [], [], none, none⟩ []).1 rfl rfl rfl rfl

/-- C7: URL classification is by string patterns with playlist precedence:
both `answer_question` and `search_videos` dispatch solely on
`is_playlist_url` (the `list=` substring test), so a URL containing `list=`
is handled by the playlist path of either operation (its result is
independent of every channel-side provider) even when the URL also matches
the `/@handle` channel pattern, and a URL without `list=` is handled by the
channel path of either operation (its result is independent of every
playlist-side provider). -/
theorem url_classification_precedence
    (yt yt' : YouTubeRepo) (llm : LLMRepo) (q url : Str) (m : Option Nat) :
    (strIncl url (strL "list=") = true → is_playlist_url url = true) ∧
    (is_playlist_url (strL "https://www.youtube.com/@handle/videos?list=PL123") = true ∧
      is_channel_url (strL "https://www.youtube.com/@handle/videos?list=PL123") = true ∧
      is_channel_url (strL "https://www.youtube.com/@handle") = true ∧
      is_playlist_url (strL "https://www.youtube.com/@handle") = false) ∧
    (yt.is_playlist_url = is_playlist_url → yt'.is_playlist_url = is_playlist_url →
      is_playlist_url url = true →
      yt.get_playlist = yt'.get_playlist →
      yt.get_playlist_videos = yt'.get_playlist_videos →
      answer_question yt llm q url m = answer_question yt' llm q url m) ∧
    (yt.is_playlist_url = is_playlist_url → yt'.is_playlist_url = is_playlist_url →
      is_playlist_url url = false →
      yt.get_channel = yt'.get_channel →
      yt.search_channel_videos = yt'.search_channel_videos →
      answer_question yt llm q url m = answer_question yt' llm q url m) ∧
    (yt.is_playlist_url = is_playlist_url → yt'.is_playlist_url = is_playlist_url →
      is_playlist_url url = true →
      yt.get_playlist_videos = yt'.get_playlist_videos →
      search_videos yt q url m = search_videos yt' q url m) ∧
    (yt.is_playlist_url = is_playlist_url → yt'.is_playlist_url = is_playlist_url →
      is_playlist_url url = false →
      yt.search_channel_videos = yt'.search_channel_videos →
      search_videos yt q url m = search_videos yt' q url m) := by
  refine ⟨fun h => h, by decide, fun h1 h2 h3 h4 h5 => ?_, fun h1 h2 h3 h4 h5 => ?_,
    fun h1 h2 h3 h4 => ?_, fun h1 h2 h3 h4 => ?_⟩
  · simp [answer_question, answerPipeline, h1, h2, h3, h4, h5]
  · simp [answer_question, answerPipeline, h1, h2, h3, h4, h5]
  · simp [search_videos, h1, h2, h3, h4]
  · simp [search_videos, h1, h2, h3, h4]

def getPlC7 : Str → Except Str Playlist :=
  fun _ => .ok ⟨strL "p", strL "P", [], strL "Ch", 0, ⟨2023, 1, 1⟩⟩

def getPvC7 : Str → Option Nat → Except Str (List Video) := fun _ _ => .ok []

def repoC7a : YouTubeRepo :=
  { is_playlist_url := is_playlist_url,
    get_playlist := getPlC7,
    get_playlist_videos := getPvC7,
    get_channel := fun _ => .ok ⟨strL "c1", strL "A", [], none, none⟩,
    search_channel_videos := fun _ _ _ _ => .ok [] }

def repoC7b : YouTubeRepo :=
  { is_playlist_url := is_playlist_url,
    get_playlist := getPlC7,
    get_playlist_videos := getPvC7,
    get_channel := fun _ => .error (strL "channel not found"),
    search_channel_videos := fun _ _ _ _ => .error (strL "down") }

def llmC7 : LLMRepo := { generate_response := fun _ _ _ => .ok (strL "a") }

def urlC7 : Str := strL "https://www.youtube.com/@handle/videos?list=PL123"

/-- Witness for C7: a URL matching both the `/@handle` channel pattern and the
`list=` playlist pattern is answered and searched identically by two repos
that differ only in their channel-side providers. -/
theorem url_classification_precedence_witness :
    answer_question repoC7a llmC7 (strL "q") urlC7 none =
        answer_question repoC7b llmC7 (strL "q") urlC7 none ∧
      search_videos repoC7a (strL "q") urlC7 none =
        search_videos repoC7b (strL "q") urlC7 none :=
  ⟨(url_classification_precedence repoC7a repoC7b llmC7 (strL "q") urlC7 none).2.2.1
      rfl rfl (by decide) rfl rfl,
    (url_classification_precedence repoC7a repoC7b llmC7 (strL "q") urlC7 none).2.2.2.2.1
      rfl rfl (by decide) rfl⟩

/-- C10: a limit argument of 0 is treated as unset, never as zero results:
`search_videos` on a playlist with `max_results = 0` behaves exactly as with
no limit; the channel branch of `answer_question` maps `max_videos = 0` to
the default limit 20 and behaves exactly as with no limit; and
`get_playlist_videos` with `max_results = 0` takes no early return and
applies no cap, returning a permutation of all videos. -/
theorem zero_limit_is_unset
    (yt : YouTubeRepo) (llm : LLMRepo) (q url : Str) (items : List Video) :
    (yt.is_playlist_url url = true →
      search_videos yt q url (some 0) = search_videos yt q url none) ∧
    channelLimit (some 0) = 20 ∧
    (yt.is_playlist_url url = false →
      answer_question yt llm q url (some 0) = answer_question yt llm q url none) ∧
    get_playlist_videos items (some 0) = get_playlist_videos items none ∧
    List.Perm (get_playlist_videos items (some 0)) items := by
  have hperm : List.Perm (sortDesc (sortDesc items)) items :=
    (sortDesc_perm (sortDesc items)).trans (sortDesc_perm items)
  have h0 : ∀ m : Option Nat, truthy m = false →
      get_playlist_videos items m = sortDesc (sortDesc items) := by
    intro m hm
    have hscan := pageScan_untruthy hm items []
    simp only [List.nil_append] at hscan
    simp only [get_playlist_videos, hscan]
    rw [if_neg (by simp [hm])]
  refine ⟨fun h => ?_, rfl, fun h => ?_, ?_, ?_⟩
  · cases hgv : yt.get_playlist_videos url none <;>
      simp [search_videos, searchPlaylistVideos, truthy, h, hgv]
  · simp [answer_question, answerPipeline, h, channelLimit, truthy, limVal]
  · rw [h0 (some 0) (by decide), h0 none rfl]
  · rw [h0 (some 0) (by decide)]
    exact hperm

def vC10 : Video :=
  { video_id := strL "v", title := strL "Clip", description := [],
    channel_title := strL "Ch", published_at := ⟨2022, 6, 1⟩ }

def repoC10 : YouTubeRepo :=
  { is_playlist_url := fun _ => true,
    get_playlist := fun _ => .ok ⟨strL "p", strL "P", [], strL "Ch", 1, ⟨2022, 1, 1⟩⟩,
    get_playlist_videos := fun _ _ => .ok [vC10],
    get_channel := fun _ => .error (strL "x"),
    search_channel_videos := fun _ _ _ _ => .error (strL "x") }

def llmC10 : LLMRepo := { generate_response := fun _ _ _ => .ok (strL "a") }

/-- Witness for C10 at a concrete one-video playlist. -/
theorem zero_limit_is_unset_witness :
    search_videos repoC10 (strL "clip") (strL "u") (some 0) =
        search_videos repoC10 (strL "clip") (strL "u") none ∧
      get_playlist_videos [vC10] (some 0) = get_playlist_videos [vC10] none ∧
      List.Perm (get_playlist_videos [vC10] (some 0)) [vC10] := by
  have h := zero_limit_is_unset repoC10 llmC10 (strL "clip") (strL "u") [vC10]
  exact ⟨h.1 rfl, h.2.2.2.1, h.2.2.2.2⟩

def vAlphaC6 : Video :=
  { video_id := strL "v1", title := strL "Alpha Gameplay", description := [],
    channel_title := strL "Ch", published_at := ⟨2024, 1, 10⟩ }

def vBetaC6 : Video :=
  { video_id := strL "v2", title := strL "Beta Review", description := [],
    channel_title := strL "Ch", published_at := ⟨2024, 2, 10⟩ }

def vGammaC6 : Video :=
  { video_id := strL "v3", title := strL "Gamma Alpha Highlights", description := [],
    channel_title := strL "Ch", published_at := ⟨2024, 3, 10⟩ }

def repoC6 : YouTubeRepo :=
  { is_playlist_url := fun _ => true,
    get_playlist := fun _ => .ok ⟨strL "p", strL "P", [], strL "Ch", 3, ⟨2024, 1, 1⟩⟩,
    get_playlist_videos := fun _ _ => .ok [vAlphaC6, vBetaC6, vGammaC6],
    get_channel := fun _ => .error (strL "x"),
    search_channel_videos := fun _ _ _ _ => .error (strL "x") }

/-- C6: searching a playlist returns exactly the videos whose title or
description contains the query as a case-insensitive substring, newest first:
a permutation of the filtered matches when no truthy limit is set, and the
first `max_results` entries of a newest-first sorted permutation of exactly
the filtered matches when a truthy `max_results` is given; in the three-video
scenario the query `alpha` returns the first and third titles, newest
first. -/
theorem search_videos_matching
    (yt : YouTubeRepo) (q url : Str) (m : Option Nat) (videos : List Video)
    (hpl : yt.is_playlist_url url = true)
    (hvs : yt.get_playlist_videos url none = .ok videos) :
    List.Sorted videoGE (search_videos yt q url m) ∧
    (∀ v, v ∈ search_videos yt q url m → matchCond q v = true) ∧
    (truthy m = false →
      List.Perm (search_videos yt q url m) (videos.filter (matchCond q))) ∧
    (truthy m = true → (search_videos yt q url m).length ≤ limVal m) ∧
    (truthy m = true →
      ∃ sortedMatches, List.Sorted videoGE sortedMatches ∧
        List.Perm sortedMatches (videos.filter (matchCond q)) ∧
        search_videos yt q url m = sortedMatches.take (limVal m)) ∧
    (search_videos repoC6 (strL "alpha") (strL "u") none).map Video.title =
      [strL "Gamma Alpha Highlights", strL "Alpha Gameplay"] := by
  have hred : search_videos yt q url m = searchPlaylistVideos videos q m := by
    simp [search_videos, hpl, hvs]
  have hmem : ∀ v, v ∈ search_videos yt q url m →
      v ∈ sortDesc (videos.filter (matchCond q)) := by
    intro v hv
    rw [hred] at hv
    by_cases ht : truthy m = true
    · simp only [searchPlaylistVideos, if_pos ht] at hv
      exact (List.take_sublist _ _).mem hv
    · simpa only [searchPlaylistVideos, if_neg ht] using hv
  refine ⟨?_, ?_, ?_, ?_, ?_, ?_⟩
  · rw [hred]
    by_cases ht : truthy m = true
    · simp only [searchPlaylistVideos, if_pos ht]
      exact (sortDesc_sorted _).sublist (List.take_sublist _ _)
    · simp only [searchPlaylistVideos, if_neg ht]
      exact sortDesc_sorted _
  · intro v hv
    exact List.of_mem_filter ((sortDesc_perm _).mem_iff.mp (hmem v hv))
  · intro ht
    rw [hred]
    have ht' : ¬ truthy m = true := by simp [ht]
    simp only [searchPlaylistVideos, if_neg ht']
    exact sortDesc_perm _
  · intro ht
    rw [hred]
    simp only [searchPlaylistVideos, if_pos ht]
    rw [List.length_take]
    omega
  · intro ht
    refine ⟨sortDesc (videos.filter (matchCond q)), sortDesc_sorted _, sortDesc_perm _, ?_⟩
    rw [hred]
    simp only [searchPlaylistVideos, if_pos ht]
  · decide

/-- Witness for C6 at the three-video scenario playlist, with and without a
truthy limit. -/
theorem search_videos_matching_witness :
    List.Sorted videoGE (search_videos repoC6 (strL "alpha") (strL "u") none) ∧
      List.Perm (search_videos repoC6 (strL "alpha") (strL "u") none)
        ([vAlphaC6, vBetaC6, vGammaC6].filter (matchCond (strL "alpha"))) ∧
      (∃ sortedMatches, List.Sorted videoGE sortedMatches ∧
        List.Perm sortedMatches
          ([vAlphaC6, vBetaC6, vGammaC6].filter (matchCond (strL "alpha"))) ∧
        search_videos repoC6 (strL "alpha") (strL "u") (some 1) =
          sortedMatches.take (limVal (some 1))) := by
  have h := search_videos_matching repoC6 (strL "alpha") (strL "u") none
    [vAlphaC6, vBetaC6, vGammaC6] rfl rfl
  have h1 := search_videos_matching repoC6 (strL "alpha") (strL "u") (some 1)
    [vAlphaC6, vBetaC6, vGammaC6] rfl rfl
  exact ⟨h.1, h.2.2.1 rfl, h1.2.2.2.2.1 (by decide)⟩

theorem desc_cond_false {d : Str} (h : pyStrip d = []) :
    (!d.isEmpty && !(pyStrip d).isEmpty) = false := by
  simp [h]

theorem desc_cond_true {d : Str} (h : pyStrip d ≠ []) :
    (!d.isEmpty && !(pyStrip d).isEmpty) = true := by
  have hd : d ≠ [] := by
    intro h0
    exact h (by rw [h0]; rfl)
  simp [List.isEmpty_iff, hd, h]

/-- C4 amended: the description line is omitted exactly for per-video entries
whose description is empty or whitespace-only; the playlist-level and
channel-level description lines are emitted unconditionally, even when the
description is empty. -/
theorem description_line_policy
    (p : Playlist) (c : Channel) (videos : List Video) (q : Str) (i : Nat) (v : Video) :
    Occurs (strL "Description: ") (build_playlist_context p videos) ∧
    Occurs (strL "Description: ") (build_channel_context c videos q) ∧
    (pyStrip v.description = [] →
      videoEntries i [v] =
        [natStr i ++ strL ". " ++ v.title,
         strL "   Published: " ++ fmtDate v.published_at,
         strL "   Channel: " ++ v.channel_title, []]) ∧
    (pyStrip v.description = [] → v.transcript = none →
      channelEntries i [v] =
        [natStr i ++ strL ". " ++ v.title,
         strL "   Published: " ++ fmtDate v.published_at, []]) := by
  refine ⟨?_, ?_, fun h => ?_, fun h ht => ?_⟩
  · unfold build_playlist_context
    refine occurs_trans (⟨[], p.description, by simp⟩ :
      Occurs (strL "Description: ") (strL "Description: " ++ p.description))
      (occurs_of_mem_joinNL ?_)
    simp
  · unfold build_channel_context
    refine occurs_trans (⟨[], c.description, by simp⟩ :
      Occurs (strL "Description: ") (strL "Description: " ++ c.description))
      (occurs_of_mem_joinNL ?_)
    simp
  · simp [videoEntries, desc_cond_false h]
  · simp [channelEntries, desc_cond_false h, ht]

def pC4 : Playlist :=
  { playlist_id := strL "p", title := strL "T", description := [],
    channel_title := strL "C", video_count := 0, published_at := ⟨2024, 1, 1⟩ }

/-- C4 counterexample: a playlist whose description is empty still produces a
`Description: ` line in the built context, so the claimed omission fails for
the playlist-level entity. -/
theorem description_line_empty_cex :
    pC4.description = [] ∧
      Occurs (strL "Description: ") (build_playlist_context pC4 []) :=
  ⟨rfl, (strIncl_iff _ _).mp (by decide)⟩

def vC4 : Video :=
  { video_id := strL "v", title := strL "Tv", description := strL "   ",
    channel_title := strL "C", published_at := ⟨2024, 2, 2⟩ }

/-- Witness for the amended C4 theorem: a whitespace-only video description
yields an entry without a description line. -/
theorem description_line_policy_witness :
    videoEntries 1 [vC4] =
      [natStr 1 ++ strL ". " ++ vC4.title,
       strL "   Published: " ++ fmtDate vC4.published_at,
       strL "   Channel: " ++ vC4.channel_title, []] :=
  (description_line_policy pC4 ⟨[], [], [], none, none⟩ [] [] 1 vC4).2.2.1 (by decide)

theorem title_line_mem (v : Video) :
    ∀ (videos : List Video) (start : Nat), v ∈ videos →
      ∃ i, (natStr i ++ strL ". " ++ v.title) ∈ videoEntries start videos := by
  intro videos
  induction videos with
  | nil => intro start h; cases h
  | cons w rest ih =>
    intro start h
    rcases List.mem_cons.mp h with rfl | hmem
    · refine ⟨start, ?_⟩
      rw [videoEntries]
      exact List.mem_append_left _ (List.mem_append_left _ (List.mem_cons_self _ _))
    · rcases ih (start + 1) hmem with ⟨i, hi⟩
      refine ⟨i, ?_⟩
      rw [videoEntries]
      exact List.mem_append_right _ hi

theorem desc_line_mem (v : Video) (hd : pyStrip v.description ≠ []) :
    ∀ (videos : List Video) (start : Nat), v ∈ videos →
      (strL "   Description: " ++ truncDesc v.description) ∈ videoEntries start videos := by
  intro videos
  induction videos with
  | nil => intro start h; cases h
  | cons w rest ih =>
    intro start h
    rcases List.mem_cons.mp h with rfl | hmem
    · rw [videoEntries, if_pos (desc_cond_true hd)]
      simp
    · rw [videoEntries]
      exact List.mem_append_right _ (ih (start + 1) hmem)

/-- C9 amended: every listed video's title occurs in the playlist context (at
least once — exactly once fails when a title also occurs elsewhere in the
text), and for every video whose description is longer than 200 characters
and not whitespace-only, its first 200 characters followed by an ellipsis
occur in the context. -/
theorem playlist_context_titles
    (p : Playlist) (videos : List Video) (v : Video) (hv : v ∈ videos) :
    Occurs v.title (build_playlist_context p videos) ∧
    (200 < v.description.length → pyStrip v.description ≠ [] →
      Occurs (v.description.take 200 ++ strL "...") (build_playlist_context p videos)) := by
  constructor
  · rcases title_line_mem v videos 1 hv with ⟨i, hi⟩
    unfold build_playlist_context
    refine occurs_trans (⟨natStr i ++ strL ". ", [], by simp⟩ :
      Occurs v.title (natStr i ++ strL ". " ++ v.title)) (occurs_of_mem_joinNL ?_)
    exact List.mem_append_right _ (List.mem_cons_of_mem _ hi)
  · intro hlen hws
    have hline := desc_line_mem v hws videos 1 hv
    unfold build_playlist_context
    refine occurs_trans (⟨strL "   Description: ", [], by simp [truncDesc, hlen]⟩ :
      Occurs (v.description.take 200 ++ strL "...")
        (strL "   Description: " ++ truncDesc v.description)) (occurs_of_mem_joinNL ?_)
    exact List.mem_append_right _ (List.mem_cons_of_mem _ hline)

def vA9 : Video :=
  { video_id := strL "x", title := strL "Alpha", description := [],
    channel_title := strL "C", published_at := ⟨2024, 1, 1⟩ }

def vB9 : Video :=
  { video_id := strL "y", title := strL "Alpha Gameplay", description := [],
    channel_title := strL "C", published_at := ⟨2024, 1, 2⟩ }

def vW9 : Video :=
  { video_id := strL "z", title := strL "W", description := List.replicate 201 ' ',
    channel_title := strL "C", published_at := ⟨2024, 1, 3⟩ }

def p9 : Playlist :=
  { playlist_id := strL "p", title := strL "T", description := strL "D",
    channel_title := strL "C", video_count := 2, published_at := ⟨2024, 1, 1⟩ }

/-- C9 counterexample: with the pairwise-distinct titles `Alpha` and
`Alpha Gameplay` the title `Alpha` occurs twice in the context, not exactly
once; and a whitespace-only 201-character description produces no truncated
description in the context at all. -/
theorem playlist_context_exactly_once_cex :
    (vA9.title ≠ vB9.title ∧
      countOcc (build_playlist_context p9 [vA9, vB9]) vA9.title = 2) ∧
    (200 < vW9.description.length ∧
      strIncl (build_playlist_context p9 [vW9])
        (vW9.description.take 200 ++ strL "...") = false) := by
  set_option maxRecDepth 8000 in decide

def vC9w : Video :=
  { video_id := strL "v", title := strL "Talk", description := List.replicate 201 'x',
    channel_title := strL "C", published_at := ⟨2024, 5, 6⟩ }

set_option maxRecDepth 8000 in
/-- Witness for the amended C9 theorem at a concrete one-video playlist with a
201-character description. -/
theorem playlist_context_titles_witness :
    Occurs vC9w.title (build_playlist_context p9 [vC9w]) ∧
      Occurs (vC9w.description.take 200 ++ strL "...")
        (build_playlist_context p9 [vC9w]) := by
  have h := playlist_context_titles p9 [vC9w] vC9w (List.mem_singleton.mpr rfl)
  refine ⟨h.1, h.2 (by decide) (by decide)⟩

/-- C2 amended: `get_video_transcript` returns the absent value whenever no
transcript source is available, whenever the primary fetch path yields a
whitespace-only joined transcript, and whenever the fallback to the external
subtitle tool fails (run exception or timeout, nonzero exit code, or no
subtitle file); but when the listing or the chosen transcript's fetch throws
and the external tool succeeds, the tool's parsed text is returned without
any emptiness check, so a whitespace-only result is not mapped to the absent
value on that path. -/
theorem get_video_transcript_policy
    (env : TranscriptEnv) (yd : YtdlpEnv) (tl : TranscriptList)
    (t : TranscriptHandle) (segs : List Str) (e : Str) (r : RunResult) :
    (env.listing = .ok tl → chooseTranscript tl = none →
      get_video_transcript env = none) ∧
    (env.listing = .ok tl → chooseTranscript tl = some t →
      t.fetchResult = .ok segs → pyStrip (joinSegments segs) = [] →
      get_video_transcript env = none) ∧
    (env.listing = .error e → extract_transcript env.ytdlp = none →
      get_video_transcript env = none) ∧
    (env.listing = .ok tl → chooseTranscript tl = some t →
      t.fetchResult = .error e → extract_transcript env.ytdlp = none →
      get_video_transcript env = none) ∧
    (yd.run = .error e → extract_transcript yd = none) ∧
    (yd.run = .ok r → r.returncode ≠ 0 → extract_transcript yd = none) ∧
    (yd.run = .ok r → r.subtitleContent = none → extract_transcript yd = none) := by
  refine ⟨fun h1 h2 => ?_, fun h1 h2 h3 h4 => ?_, fun h1 h2 => ?_,
    fun h1 h2 h3 h4 => ?_, fun h1 => ?_, fun h1 h2 => ?_, fun h1 h2 => ?_⟩
  · simp [get_video_transcript, h1, h2]
  · simp [get_video_transcript, h1, h2, h3, h4]
  · simp [get_video_transcript, h1, h2]
  · simp [get_video_transcript, h1, h2, h3, h4]
  · simp [extract_transcript, h1]
  · simp [extract_transcript, h1, h2]
  · simp [extract_transcript, h1, h2]

def envC2 : TranscriptEnv :=
  { listing := .error (strL "transcripts disabled"),
    ytdlp := { run := .ok { returncode := 0, subtitleContent := some (strL "WEBVTT") } } }

/-- C2 counterexample: when the transcript listing throws and the external
subtitle tool succeeds with a subtitle file containing no cue text, the
adapter returns the empty string, not the absent value the claim requires
for a whitespace-only fetched transcript. -/
theorem get_video_transcript_empty_cex :
    get_video_transcript envC2 = some [] ∧ get_video_transcript envC2 ≠ none := by
  refine ⟨by decide, by decide⟩

def tlC2 : TranscriptList := { manual_en := none, generated_en := none, enumerated := [] }

def ydC2 : YtdlpEnv := { run := .error (strL "yt-dlp timeout") }

def envC2w : TranscriptEnv := { listing := .ok tlC2, ytdlp := ydC2 }

/-- Witness for the amended C2 theorem: no transcript sources at all yields
the absent value, and a failing external tool yields the absent value. -/
theorem get_video_transcript_policy_witness :
    get_video_transcript envC2w = none ∧ extract_transcript ydC2 = none := by
  have h := get_video_transcript_policy envC2w ydC2 tlC2
    ⟨.error []⟩ [] (strL "yt-dlp timeout") ⟨0, none⟩
  exact ⟨h.1 rfl rfl, h.2.2.2.2.1 rfl⟩

end YTQA
